import Mathlib

/-!
Shallow embedding of `src/libportal/remote.c` (libportal screencast /
remote-desktop sessions).  Pure Lean functions mirror the C functions;
side effects (D-Bus calls, signal subscriptions, GTask completion,
freeing) are reified as an ordered `Action` trace.  Randomly generated
tokens (`g_random_int_range`) and subscription / signal-handler ids
returned by GLib are passed in explicitly as fresh naturals.
-/

namespace LibPortal

/-- The `XdpSessionType` of the libportal headers (screencast vs remote desktop). -/
inductive XdpSessionType
  | screencast
  | remoteDesktop
deriving DecidableEq, Repr

/-- The `XdpSessionState` lifecycle: `Init` / `Active` / `Closed` lifecycle states. -/
inductive XdpSessionState
  | initial
  | active
  | closed
deriving DecidableEq, Repr

/-- Modelled from the spec: device capability bits (pointer / keyboard / touch)
of `XdpDeviceType`; the header defining the numeric values is not in `src/`,
only distinctness of the bits matters. -/
def XDP_DEVICE_NONE : Nat := 0

def XDP_DEVICE_POINTER : Nat := 1

def XDP_DEVICE_KEYBOARD : Nat := 2

def XDP_DEVICE_TOUCHSCREEN : Nat := 4

/-- D-Bus object paths.  The C code builds them by string concatenation
(`g_strconcat (REQUEST_PATH_PREFIX, sender, "/", token, NULL)`); we keep them
structured, with the random token as the `Nat` fed to `g_strdup_printf
("portal%d", ...)`. -/
inductive ObjPath
  | request (sender : String) (token : Nat)
  | session (sender : String) (token : Nat)
  | portalObject
deriving DecidableEq, Repr

def PORTAL_BUS_NAME : String := "org.freedesktop.portal.Desktop"

def REQUEST_INTERFACE : String := "org.freedesktop.portal.Request"

def SESSION_INTERFACE : String := "org.freedesktop.portal.Session"

def SCREENCAST_INTERFACE : String := "org.freedesktop.portal.ScreenCast"

def REMOTE_DESKTOP_INTERFACE : String := "org.freedesktop.portal.RemoteDesktop"

/-- Values stored in a `a{sv}` options vardict. -/
inductive OptVal
  | str (s : String)
  | u32 (n : Nat)
  | b (v : Bool)
deriving DecidableEq, Repr

/-- Arguments of a D-Bus call.  Doubles are carried opaquely (the code never
computes with them, it only forwards them), represented by an integer code. -/
inductive Arg
  | obj (p : ObjPath)
  | str (s : String)
  | u32 (n : Nat)
  | i32 (n : Int)
  | d (x : Int)
  | vardict (entries : List (String × OptVal))
deriving DecidableEq, Repr

/-- Which C signal handler a subscription routes `Response` to. -/
inductive Handler
  | session_created
  | devices_selected
  | sources_selected
  | session_started
deriving DecidableEq, Repr

inductive ErrKind
  | cancelled
  | failed
deriving DecidableEq, Repr

/-- Result delivered to the caller's `GTask`. -/
inductive TaskResult
  | session (id : ObjPath) (t : XdpSessionType)
  | ok
  | err (k : ErrKind) (msg : String)
deriving DecidableEq, Repr

/-- One observable side effect of the C code, in program order. -/
inductive Action
  | signalSubscribe (path : ObjPath) (h : Handler) (sigId : Nat)
  | signalUnsubscribe (sigId : Nat)
  | cancelConnect (cid : Nat)
  | cancelDisconnect (cid : Nat)
  | busCall (objectPath : ObjPath) (iface : String) (method : String) (args : List Arg)
  | taskReturn (r : TaskResult)
  | free
  | parentExport
  | parentUnexport
  | emitClosed
deriving DecidableEq, Repr

/-! ## The establishment state (`CreateCall`) and its functions -/

/-- The C `CreateCall` struct.  `signal_id = 0` / `cancelled_id = 0` model the
NULL/unset case, matching the C guards `if (call->signal_id)`.  `id` and
`request_path` start as `none` (NULL). -/
structure CreateCall where
  sender : String
  type : XdpSessionType
  devices : Nat
  outputs : Nat
  multiple : Bool
  id : Option ObjPath
  request_path : Option ObjPath
  signal_id : Nat
  cancelled_id : Nat
  has_cancellable : Bool
deriving DecidableEq, Repr

/-- Embeds `create_call_free`: unsubscribe surviving signal subscription, disconnect
the cancelled handler, free the struct. -/
def create_call_free (call : CreateCall) : List Action :=
  (if call.signal_id ≠ 0 then [Action.signalUnsubscribe call.signal_id] else [])
    ++ (if call.cancelled_id ≠ 0 then [Action.cancelDisconnect call.cancelled_id] else [])
    ++ [Action.free]

/-- Session object the caller receives (`_xdp_session_new` lives outside
`src/`; modelled from the spec: a new Session with the negotiated id, the
requested kind, state `Init`, and empty device mask / stream list). -/
structure XdpSession where
  sender : String
  id : ObjPath
  type : XdpSessionType
  state : XdpSessionState
  devices : Nat
  streams : Option (List (Nat × List (String × OptVal)))
deriving DecidableEq, Repr

/-- Embeds `sources_selected` handler: parse `(u@a{sv})`, complete the task for
response codes 0/1/2, then `create_call_free`. -/
def sources_selected (response : Nat) (call : CreateCall) : List Action :=
  (if response = 0 then
    [Action.taskReturn (TaskResult.session (call.id.getD ObjPath.portalObject) call.type)]
  else if response = 1 then
    [Action.taskReturn (TaskResult.err ErrKind.cancelled "Remote desktop canceled")]
  else if response = 2 then
    [Action.taskReturn (TaskResult.err ErrKind.failed "Remote desktop failed")]
  else [])
    ++ create_call_free call

/-- Embeds `select_sources`: subscribe `sources_selected` on a fresh request handle,
then call `ScreenCast.SelectSources` with `types` and `multiple` options.
Note: the C code stores the handle only in a local; `call->request_path`
is not updated. -/
def select_sources (tok sigId : Nat) (call : CreateCall) : CreateCall × List Action :=
  let handle := ObjPath.request call.sender tok
  let call' := { call with signal_id := sigId }
  (call',
   [Action.signalSubscribe handle Handler.sources_selected sigId,
    Action.busCall ObjPath.portalObject SCREENCAST_INTERFACE "SelectSources"
      [Arg.obj (call.id.getD ObjPath.portalObject),
       Arg.vardict [("handle_token", OptVal.u32 tok),
                    ("types", OptVal.u32 call.outputs),
                    ("multiple", OptVal.b call.multiple)]]])

/-- Embeds `devices_selected` handler: on code 0 unsubscribe, then either issue
`SelectSources` (if an output mask was requested) or resolve with a new
session; on other codes complete with the matching error (codes 1/2 only)
and free. -/
def devices_selected (tok sigId : Nat) (response : Nat) (call : CreateCall) :
    CreateCall × List Action :=
  if response = 0 then
    let call1 := { call with signal_id := 0 }
    if call.outputs ≠ 0 then
      let (call2, acts) := select_sources tok sigId call1
      (call2, Action.signalUnsubscribe call.signal_id :: acts)
    else
      (call1,
       Action.signalUnsubscribe call.signal_id
         :: Action.taskReturn (TaskResult.session (call.id.getD ObjPath.portalObject) call.type)
         :: create_call_free call1)
  else
    (call,
     (if response = 1 then
        [Action.taskReturn (TaskResult.err ErrKind.cancelled "Remote desktop canceled")]
      else if response = 2 then
        [Action.taskReturn (TaskResult.err ErrKind.failed "Remote desktop failed")]
      else [])
       ++ create_call_free call)

/-- Embeds `select_devices`: subscribe `devices_selected` on a fresh request handle,
then call `RemoteDesktop.SelectDevices` with the `type` option. -/
def select_devices (tok sigId : Nat) (call : CreateCall) : CreateCall × List Action :=
  let handle := ObjPath.request call.sender tok
  let call' := { call with signal_id := sigId }
  (call',
   [Action.signalSubscribe handle Handler.devices_selected sigId,
    Action.busCall ObjPath.portalObject REMOTE_DESKTOP_INTERFACE "SelectDevices"
      [Arg.obj (call.id.getD ObjPath.portalObject),
       Arg.vardict [("handle_token", OptVal.u32 tok),
                    ("type", OptVal.u32 call.devices)]]])

/-- Embeds `session_created` handler: on code 0 unsubscribe, then branch on the
session type to `select_devices` (remote desktop) or `select_sources`
(screencast); on codes 1/2 complete with the matching error; free on any
nonzero code. -/
def session_created (tok sigId : Nat) (response : Nat) (call : CreateCall) :
    CreateCall × List Action :=
  if response = 0 then
    let call1 := { call with signal_id := 0 }
    let (call2, acts) :=
      if call.type = XdpSessionType.remoteDesktop then
        select_devices tok sigId call1
      else
        select_sources tok sigId call1
    (call2, Action.signalUnsubscribe call.signal_id :: acts)
  else
    (call,
     (if response = 1 then
        [Action.taskReturn (TaskResult.err ErrKind.cancelled "CreateSession canceled")]
      else if response = 2 then
        [Action.taskReturn (TaskResult.err ErrKind.failed "CreateSession failed")]
      else [])
       ++ create_call_free call)

/-- Embeds `create_cancelled_cb`: best-effort, fire-and-forget `Close` on
`call->request_path` (errors ignored, no callback). -/
def create_cancelled_cb (call : CreateCall) : List Action :=
  [Action.busCall (call.request_path.getD ObjPath.portalObject) REQUEST_INTERFACE "Close" []]

/-- Embeds `create_session`: make a request token and a session token, store
`request_path` and `id`, subscribe `session_created`, connect the cancelled
handler when a cancellable was supplied, and call `CreateSession` on the
interface chosen by the session type. -/
def create_session (tok sessTok sigId cancId : Nat) (call : CreateCall) :
    CreateCall × List Action :=
  let rp := ObjPath.request call.sender tok
  let id := ObjPath.session call.sender sessTok
  let cancelled_id := if call.has_cancellable then cancId else 0
  let call' := { call with request_path := some rp, id := some id,
                           signal_id := sigId, cancelled_id := cancelled_id }
  (call',
   [Action.signalSubscribe rp Handler.session_created sigId]
     ++ (if call.has_cancellable then [Action.cancelConnect cancId] else [])
     ++ [Action.busCall ObjPath.portalObject
          (if call.type = XdpSessionType.remoteDesktop then REMOTE_DESKTOP_INTERFACE
           else SCREENCAST_INTERFACE)
          "CreateSession"
          [Arg.vardict [("handle_token", OptVal.u32 tok),
                        ("session_handle_token", OptVal.u32 sessTok)]]])

/-- Embeds `xdp_portal_create_screencast_session`: build the `CreateCall`
(type screencast, no devices) and run `create_session`. -/
def xdp_portal_create_screencast_session (sender : String) (outputs : Nat)
    (multiple : Bool) (has_cancellable : Bool) (tok sessTok sigId cancId : Nat) :
    CreateCall × List Action :=
  create_session tok sessTok sigId cancId
    { sender := sender, type := XdpSessionType.screencast, devices := XDP_DEVICE_NONE,
      outputs := outputs, multiple := multiple, id := none, request_path := none,
      signal_id := 0, cancelled_id := 0, has_cancellable := has_cancellable }

/-- Embeds `xdp_portal_create_remote_desktop_session`: build the `CreateCall`
(type remote desktop) and run `create_session`. -/
def xdp_portal_create_remote_desktop_session (sender : String) (devices outputs : Nat)
    (multiple : Bool) (has_cancellable : Bool) (tok sessTok sigId cancId : Nat) :
    CreateCall × List Action :=
  create_session tok sessTok sigId cancId
    { sender := sender, type := XdpSessionType.remoteDesktop, devices := devices,
      outputs := outputs, multiple := multiple, id := none, request_path := none,
      signal_id := 0, cancelled_id := 0, has_cancellable := has_cancellable }

/-! ## Event driver for the establishment machine

The single-threaded GLib main loop delivers each `Response` signal to the
handler currently subscribed for this operation; a caller cancellation runs
`create_cancelled_cb`.  `pendingAfter` tracks which handler the live
subscription routes to (`none` once the call has been freed). -/

def pendingAfter (acts : List Action) (cur : Option Handler) : Option Handler :=
  acts.foldl
    (fun p a =>
      match a with
      | Action.signalSubscribe _ h _ => some h
      | Action.free => none
      | _ => p)
    cur

structure RunState where
  call : CreateCall
  pending : Option Handler
  nextTok : Nat
  nextSig : Nat
  trace : List Action
deriving Repr

inductive Event
  | response (code : Nat)
  | cancel
deriving DecidableEq, Repr

/-- Deliver one `Response(code)` signal to whichever handler is subscribed. -/
def dispatchResponse (s : RunState) (code : Nat) : RunState :=
  match s.pending with
  | none => s
  | some Handler.session_created =>
      let (c, acts) := session_created s.nextTok s.nextSig code s.call
      { call := c, pending := pendingAfter acts s.pending,
        nextTok := s.nextTok + 1, nextSig := s.nextSig + 1, trace := s.trace ++ acts }
  | some Handler.devices_selected =>
      let (c, acts) := devices_selected s.nextTok s.nextSig code s.call
      { call := c, pending := pendingAfter acts s.pending,
        nextTok := s.nextTok + 1, nextSig := s.nextSig + 1, trace := s.trace ++ acts }
  | some Handler.sources_selected =>
      let acts := sources_selected code s.call
      { s with pending := pendingAfter acts s.pending, trace := s.trace ++ acts }
  | some Handler.session_started => s

/-- Fire the caller's cancellable: runs `create_cancelled_cb` when the
handler is connected. -/
def dispatchCancel (s : RunState) : RunState :=
  if s.call.cancelled_id ≠ 0 ∧ s.pending ≠ none then
    { s with trace := s.trace ++ create_cancelled_cb s.call }
  else s

def dispatchEvent (s : RunState) (e : Event) : RunState :=
  match e with
  | Event.response code => dispatchResponse s code
  | Event.cancel => dispatchCancel s

def runEvents (s : RunState) (evs : List Event) : RunState :=
  evs.foldl dispatchEvent s

/-- Start an establishment run.  `create_session` consumes tokens 0 (request
handle) and 1 (session handle); subscription ids start at 1 (0 = none). -/
def initCreate (t : XdpSessionType) (devices outputs : Nat) (multiple : Bool)
    (sender : String) (has_cancellable : Bool) : RunState :=
  let (c, acts) :=
    match t with
    | XdpSessionType.screencast =>
        xdp_portal_create_screencast_session sender outputs multiple has_cancellable 0 1 1 1
    | XdpSessionType.remoteDesktop =>
        xdp_portal_create_remote_desktop_session sender devices outputs multiple
          has_cancellable 0 1 1 1
  { call := c, pending := pendingAfter acts none, nextTok := 2, nextSig := 2, trace := acts }

/-! ## Session setters, the Start flow, Close and the input gate -/

/-- Setter `_xdp_session_set_devices` (modelled from the spec: plain setter outside
`src/`). -/
def set_devices (sess : XdpSession) (d : Nat) : XdpSession :=
  { sess with devices := d }

/-- Setter `_xdp_session_set_streams` (modelled from the spec: plain setter outside
`src/`). -/
def set_streams (sess : XdpSession) (v : List (Nat × List (String × OptVal))) :
    XdpSession :=
  { sess with streams := some v }

/-- Setter `_xdp_session_set_session_state` (modelled from the spec: plain setter
outside `src/`). -/
def set_session_state (sess : XdpSession) (st : XdpSessionState) : XdpSession :=
  { sess with state := st }

/-- The C `StartCall` struct.  `parent_handle = none` models NULL (a parent
was supplied but not yet exported); `some ""` is the no-parent case. -/
structure StartCall where
  sender : String
  session : XdpSession
  has_parent : Bool
  parent_handle : Option String
  signal_id : Nat
  request_path : Option ObjPath
  cancelled_id : Nat
  has_cancellable : Bool
deriving DecidableEq, Repr

/-- Embeds `start_call_free`: unexport the parent if one was supplied, unsubscribe,
disconnect the cancelled handler, free. -/
def start_call_free (call : StartCall) : List Action :=
  (if call.has_parent then [Action.parentUnexport] else [])
    ++ (if call.signal_id ≠ 0 then [Action.signalUnsubscribe call.signal_id] else [])
    ++ (if call.cancelled_id ≠ 0 then [Action.cancelDisconnect call.cancelled_id] else [])
    ++ [Action.free]

/-- Payload of the Start `Response` (the `a{sv}` dict): optional `devices`
mask and optional `streams` array. -/
structure StartPayload where
  devices : Option Nat
  streams : Option (List (Nat × List (String × OptVal)))
deriving DecidableEq, Repr

/-- Embeds `session_started` handler: on code 0 apply the `devices` / `streams`
fields that are present in the payload and complete with TRUE; on codes 1/2
complete with the matching error; then set the session state to Active
(code 0) or Closed (any other code) and free. -/
def session_started (response : Nat) (ret : StartPayload) (call : StartCall) :
    StartCall × List Action :=
  let acts :=
    if response = 0 then [Action.taskReturn TaskResult.ok]
    else if response = 1 then
      [Action.taskReturn (TaskResult.err ErrKind.cancelled "Screencast canceled")]
    else if response = 2 then
      [Action.taskReturn (TaskResult.err ErrKind.failed "Screencast failed")]
    else []
  let sess1 :=
    if response = 0 then
      let s1 := match ret.devices with
        | some d => set_devices call.session d
        | none => call.session
      match ret.streams with
      | some v => set_streams s1 v
      | none => s1
    else call.session
  let sess2 := set_session_state sess1
    (if response = 0 then XdpSessionState.active else XdpSessionState.closed)
  let call' := { call with session := sess2 }
  (call', acts ++ start_call_free call')

/-- Embeds `start_cancelled_cb`: best-effort `Close` on `call->request_path`. -/
def start_cancelled_cb (call : StartCall) : List Action :=
  [Action.busCall (call.request_path.getD ObjPath.portalObject) REQUEST_INTERFACE "Close" []]

/-- Embeds `start_session`: if the parent handle has not arrived yet, kick off the
parent export and return; otherwise subscribe `session_started` on a fresh
request handle, connect the cancelled handler, and call `Start` with the
session id and parent handle. -/
def start_session (tok sigId cancId : Nat) (call : StartCall) :
    StartCall × List Action :=
  match call.parent_handle with
  | none => (call, [Action.parentExport])
  | some ph =>
      let rp := ObjPath.request call.sender tok
      let cancelled_id := if call.has_cancellable then cancId else 0
      let call' := { call with request_path := some rp, signal_id := sigId,
                               cancelled_id := cancelled_id }
      (call',
       [Action.signalSubscribe rp Handler.session_started sigId]
         ++ (if call.has_cancellable then [Action.cancelConnect cancId] else [])
         ++ [Action.busCall ObjPath.portalObject
              (if call.session.type = XdpSessionType.remoteDesktop then REMOTE_DESKTOP_INTERFACE
               else SCREENCAST_INTERFACE)
              "Start"
              [Arg.obj call.session.id, Arg.str ph,
               Arg.vardict [("handle_token", OptVal.u32 tok)]]])

/-- Embeds `parent_exported` callback: store the exported handle and resume
`start_session`. -/
def parent_exported (handle : String) (tok sigId cancId : Nat) (call : StartCall) :
    StartCall × List Action :=
  start_session tok sigId cancId { call with parent_handle := some handle }

/-- Embeds `xdp_session_start`: build the `StartCall` (parent handle "" when no
parent window information was supplied) and run `start_session`.  The only
check in the C code is `XDP_IS_SESSION (session)`; the session state is not
inspected. -/
def xdp_session_start (sess : XdpSession) (has_parent : Bool) (has_cancellable : Bool)
    (tok sigId cancId : Nat) : StartCall × List Action :=
  start_session tok sigId cancId
    { sender := sess.sender, session := sess, has_parent := has_parent,
      parent_handle := if has_parent then none else some "",
      signal_id := 0, request_path := none, cancelled_id := 0,
      has_cancellable := has_cancellable }

/-- Embeds `xdp_session_close`: synchronous best-effort `Close` on the session's own
object path, then unconditionally set state Closed and emit "closed". -/
def xdp_session_close (sess : XdpSession) : XdpSession × List Action :=
  ({ sess with state := XdpSessionState.closed },
   [Action.busCall sess.id SESSION_INTERFACE "Close" [],
    Action.emitClosed])

/-- GLib `g_unix_fd_list_get`: the fd at the given index, or -1 when the index is
out of range (GLib reports an error and returns -1). -/
def g_unix_fd_list_get (fds : List Int) (idx : Nat) : Int :=
  (fds.get? idx).getD (-1)

/-- Embeds `xdp_session_open_pipewire_remote`: one synchronous `OpenPipeWireRemote`
round trip, whose outcome is the external input `reply` (`none` = call
failed; `some (idx, fds)` = the `(h)` reply index and the attached fd list).
On failure it warns and returns -1; on success it returns the fd extracted
from the fd list at the reply's index.  The session itself is returned
untouched. -/
def xdp_session_open_pipewire_remote (sess : XdpSession)
    (reply : Option (Nat × List Int)) : Int × XdpSession :=
  match reply with
  | none => (-1, sess)
  | some (idx, fds) => (g_unix_fd_list_get fds idx, sess)

/-- The common `g_return_if_fail` guard of every input-injection call:
remote-desktop kind, Active state, required device bit granted. -/
def inputGate (sess : XdpSession) (bit : Nat) : Bool :=
  sess.type = XdpSessionType.remoteDesktop
    && sess.state = XdpSessionState.active
    && sess.devices &&& bit ≠ 0

/-- Embeds `xdp_session_pointer_motion`. -/
def xdp_session_pointer_motion (sess : XdpSession) (dx dy : Int) : List Action :=
  if inputGate sess XDP_DEVICE_POINTER then
    [Action.busCall ObjPath.portalObject REMOTE_DESKTOP_INTERFACE "NotifyPointerMotion"
      [Arg.obj sess.id, Arg.vardict [], Arg.d dx, Arg.d dy]]
  else []

/-- Embeds `xdp_session_pointer_position`. -/
def xdp_session_pointer_position (sess : XdpSession) (stream : Nat) (x y : Int) :
    List Action :=
  if inputGate sess XDP_DEVICE_POINTER then
    [Action.busCall ObjPath.portalObject REMOTE_DESKTOP_INTERFACE "NotifyPointerMotionAbsolute"
      [Arg.obj sess.id, Arg.vardict [], Arg.u32 stream, Arg.d x, Arg.d y]]
  else []

/-- Embeds `xdp_session_pointer_button`. -/
def xdp_session_pointer_button (sess : XdpSession) (button : Int) (state : Nat) :
    List Action :=
  if inputGate sess XDP_DEVICE_POINTER then
    [Action.busCall ObjPath.portalObject REMOTE_DESKTOP_INTERFACE "NotifyPointerButton"
      [Arg.obj sess.id, Arg.vardict [], Arg.i32 button, Arg.u32 state]]
  else []

/-- Embeds `xdp_session_pointer_axis` (smooth scroll, `finish` flag in options). -/
def xdp_session_pointer_axis (sess : XdpSession) (finish : Bool) (dx dy : Int) :
    List Action :=
  if inputGate sess XDP_DEVICE_POINTER then
    [Action.busCall ObjPath.portalObject REMOTE_DESKTOP_INTERFACE "NotifyPointerAxis"
      [Arg.obj sess.id, Arg.vardict [("finish", OptVal.b finish)], Arg.d dx, Arg.d dy]]
  else []

/-- Embeds `xdp_session_pointer_axis_discrete`. -/
def xdp_session_pointer_axis_discrete (sess : XdpSession) (axis : Nat) (steps : Int) :
    List Action :=
  if inputGate sess XDP_DEVICE_POINTER then
    [Action.busCall ObjPath.portalObject REMOTE_DESKTOP_INTERFACE "NotifyPointerAxisDiscrete"
      [Arg.obj sess.id, Arg.vardict [], Arg.u32 axis, Arg.i32 steps]]
  else []

/-- Embeds `xdp_session_keyboard_key` (keysym flag picks the remote method name). -/
def xdp_session_keyboard_key (sess : XdpSession) (keysym : Bool) (key : Int)
    (state : Nat) : List Action :=
  if inputGate sess XDP_DEVICE_KEYBOARD then
    [Action.busCall ObjPath.portalObject REMOTE_DESKTOP_INTERFACE
      (if keysym then "NotifyKeyboardKeysym" else "NotifyKeyboardKeycode")
      [Arg.obj sess.id, Arg.vardict [], Arg.i32 key, Arg.u32 state]]
  else []

/-- Embeds `xdp_session_touch_down`. -/
def xdp_session_touch_down (sess : XdpSession) (stream slot : Nat) (x y : Int) :
    List Action :=
  if inputGate sess XDP_DEVICE_TOUCHSCREEN then
    [Action.busCall ObjPath.portalObject REMOTE_DESKTOP_INTERFACE "NotifyTouchDown"
      [Arg.obj sess.id, Arg.vardict [], Arg.u32 stream, Arg.u32 slot, Arg.d x, Arg.d y]]
  else []

/-- Embeds `xdp_session_touch_position`. -/
def xdp_session_touch_position (sess : XdpSession) (stream slot : Nat) (x y : Int) :
    List Action :=
  if inputGate sess XDP_DEVICE_TOUCHSCREEN then
    [Action.busCall ObjPath.portalObject REMOTE_DESKTOP_INTERFACE "NotifyTouchMotion"
      [Arg.obj sess.id, Arg.vardict [], Arg.u32 stream, Arg.u32 slot, Arg.d x, Arg.d y]]
  else []

/-- Embeds `xdp_session_touch_up`: note the C code sends method "NotifyTouchMotion"
with only the slot argument. -/
def xdp_session_touch_up (sess : XdpSession) (slot : Nat) : List Action :=
  if inputGate sess XDP_DEVICE_TOUCHSCREEN then
    [Action.busCall ObjPath.portalObject REMOTE_DESKTOP_INTERFACE "NotifyTouchMotion"
      [Arg.obj sess.id, Arg.vardict [], Arg.u32 slot]]
  else []

/-! ## Trace observations -/

/-- Is this action a task completion (the caller's continuation firing)? -/
def isTaskReturn : Action → Bool
  | Action.taskReturn _ => true
  | _ => false

/-- Is this action a signal unsubscription? -/
def isUnsub : Action → Bool
  | Action.signalUnsubscribe _ => true
  | _ => false

/-- Is this action a bus call with the given method name? -/
def isBusMethod (m : String) : Action → Bool
  | Action.busCall _ _ m2 _ => m2 == m
  | _ => false

/-- Does the trace contain a bus call with the given method name? -/
def hasBusMethod (tr : List Action) (m : String) : Bool :=
  tr.any (isBusMethod m)

/-- Number of task completions (continuation invocations) in a trace. -/
def countTaskReturns (tr : List Action) : Nat :=
  tr.countP (fun a => isTaskReturn a)

/-- Number of signal unsubscriptions in a trace. -/
def countUnsubs (tr : List Action) : Nat :=
  tr.countP (fun a => isUnsub a)

/-- Index of the first task completion. -/
def firstTaskReturnIdx (tr : List Action) : Nat :=
  tr.findIdx (fun a => isTaskReturn a)

/-- Index of the first signal unsubscription. -/
def firstUnsubIdx (tr : List Action) : Nat :=
  tr.findIdx (fun a => isUnsub a)

/-- Invariant for exactly-once completion: a run has fired the caller's
continuation at most once, and not at all while a pending request is still
subscribed. -/
def TRInv (s : RunState) : Prop :=
  countTaskReturns s.trace ≤ 1 ∧ (s.pending ≠ none → countTaskReturns s.trace = 0)

/-- Invariant of a screencast establishment: no SelectDevices call is ever
on the wire and the devices handler is never the pending one. -/
def NoSelDev (s : RunState) : Prop :=
  s.call.type = XdpSessionType.screencast ∧
    hasBusMethod s.trace "SelectDevices" = false ∧
    s.pending ≠ some Handler.devices_selected

/-- Invariant of a remote-desktop establishment with an empty output mask:
no SelectSources call is ever on the wire and the sources handler is never
the pending one. -/
def NoSelSrc (s : RunState) : Prop :=
  s.call.type = XdpSessionType.remoteDesktop ∧ s.call.outputs = 0 ∧
    hasBusMethod s.trace "SelectSources" = false ∧
    s.pending ≠ some Handler.sources_selected

/-! ## Sample values used by concrete witnesses and counterexamples -/

/-- A remote-desktop session that has successfully started with all three
device capabilities granted. -/
def sampleActiveRD : XdpSession :=
  { sender := ":1.42", id := ObjPath.session ":1.42" 1,
    type := XdpSessionType.remoteDesktop, state := XdpSessionState.active,
    devices := 7, streams := none }

/-- A session whose lifecycle state is Closed. -/
def sampleClosedSession : XdpSession :=
  { sender := ":1.42", id := ObjPath.session ":1.42" 1,
    type := XdpSessionType.remoteDesktop, state := XdpSessionState.closed,
    devices := 7, streams := none }

/-- A `CreateCall` in the SelectSources stage (subscription 5 live, cancelled
handler 7 connected). -/
def sampleCreateCall : CreateCall :=
  { sender := ":1.42", type := XdpSessionType.screencast, devices := 0,
    outputs := 1, multiple := false, id := some (ObjPath.session ":1.42" 1),
    request_path := some (ObjPath.request ":1.42" 0), signal_id := 5,
    cancelled_id := 7, has_cancellable := true }

/-- A `CreateCall` in the SelectDevices stage of a remote-desktop
establishment that requested no outputs. -/
def sampleCreateCallNoOutputs : CreateCall :=
  { sender := ":1.42", type := XdpSessionType.remoteDesktop, devices := 3,
    outputs := 0, multiple := false, id := some (ObjPath.session ":1.42" 1),
    request_path := some (ObjPath.request ":1.42" 0), signal_id := 5,
    cancelled_id := 7, has_cancellable := true }

/-- A `StartCall` awaiting the Start response (subscription 5 live). -/
def sampleStartCall : StartCall :=
  { sender := ":1.42", session := sampleActiveRD, has_parent := false,
    parent_handle := some "", signal_id := 5,
    request_path := some (ObjPath.request ":1.42" 0), cancelled_id := 0,
    has_cancellable := false }

/-! ## Helper lemmas about traces and the driver -/

theorem pendingAfter_append (xs ys : List Action) (p : Option Handler) :
    pendingAfter (xs ++ ys) p = pendingAfter ys (pendingAfter xs p) :=
  List.foldl_append _ _ _ _

theorem countTaskReturns_append (xs ys : List Action) :
    countTaskReturns (xs ++ ys) = countTaskReturns xs + countTaskReturns ys :=
  List.countP_append _ _ _

theorem hasBusMethod_append (xs ys : List Action) (m : String) :
    hasBusMethod (xs ++ ys) m = (hasBusMethod xs m || hasBusMethod ys m) :=
  List.any_append

theorem pendingAfter_create_call_free (call : CreateCall) (p : Option Handler) :
    pendingAfter (create_call_free call) p = none := by
  unfold create_call_free
  split_ifs <;> rfl

theorem countTaskReturns_create_call_free (call : CreateCall) :
    countTaskReturns (create_call_free call) = 0 := by
  unfold create_call_free
  split_ifs <;> rfl

theorem hasBusMethod_create_call_free (call : CreateCall) (m : String) :
    hasBusMethod (create_call_free call) m = false := by
  unfold create_call_free
  split_ifs <;> rfl

/-- Per-dispatch fact for `session_created`: at most one completion, and none
at all when a pending request survives the handler. -/
theorem session_created_step (tok sigId c : Nat) (call : CreateCall) (p : Option Handler) :
    countTaskReturns (session_created tok sigId c call).2 ≤ 1 ∧
      (pendingAfter (session_created tok sigId c call).2 p ≠ none →
        countTaskReturns (session_created tok sigId c call).2 = 0) := by
  by_cases hc0 : c = 0
  · subst hc0
    by_cases ht : call.type = XdpSessionType.remoteDesktop <;>
      simp [session_created, select_devices, select_sources, ht, countTaskReturns,
        List.countP_cons, isTaskReturn, pendingAfter]
  · have hfree : pendingAfter (session_created tok sigId c call).2 p = none := by
      simp only [session_created, if_neg hc0]
      rw [pendingAfter_append, pendingAfter_create_call_free]
    refine ⟨?_, fun hne => absurd hfree hne⟩
    simp only [session_created, if_neg hc0]
    rw [countTaskReturns_append, countTaskReturns_create_call_free]
    split_ifs <;> simp [countTaskReturns, List.countP_cons, isTaskReturn]

/-- Per-dispatch fact for `devices_selected`. -/
theorem devices_selected_step (tok sigId c : Nat) (call : CreateCall) (p : Option Handler) :
    countTaskReturns (devices_selected tok sigId c call).2 ≤ 1 ∧
      (pendingAfter (devices_selected tok sigId c call).2 p ≠ none →
        countTaskReturns (devices_selected tok sigId c call).2 = 0) := by
  by_cases hc0 : c = 0
  · subst hc0
    by_cases ho : call.outputs ≠ 0
    · simp [devices_selected, select_sources, ho, countTaskReturns,
        List.countP_cons, isTaskReturn, pendingAfter]
    · have ho2 : call.outputs = 0 := not_ne_iff.mp ho
      have hacts : (devices_selected tok sigId 0 call).2 =
          [Action.signalUnsubscribe call.signal_id,
           Action.taskReturn (TaskResult.session (call.id.getD ObjPath.portalObject) call.type)]
            ++ create_call_free { call with signal_id := 0 } := by
        simp [devices_selected, ho2]
      have hfree : pendingAfter (devices_selected tok sigId 0 call).2 p = none := by
        rw [hacts, pendingAfter_append, pendingAfter_create_call_free]
      refine ⟨?_, fun hne => absurd hfree hne⟩
      rw [hacts, countTaskReturns_append, countTaskReturns_create_call_free]
      simp [countTaskReturns, List.countP_cons, isTaskReturn]
  · have hfree : pendingAfter (devices_selected tok sigId c call).2 p = none := by
      simp only [devices_selected, if_neg hc0]
      rw [pendingAfter_append, pendingAfter_create_call_free]
    refine ⟨?_, fun hne => absurd hfree hne⟩
    simp only [devices_selected, if_neg hc0]
    rw [countTaskReturns_append, countTaskReturns_create_call_free]
    split_ifs <;> simp [countTaskReturns, List.countP_cons, isTaskReturn]

/-- Per-dispatch fact for `sources_selected`: the handler always tears the
pending request down, completing the task at most once. -/
theorem sources_selected_step (c : Nat) (call : CreateCall) (p : Option Handler) :
    countTaskReturns (sources_selected c call) ≤ 1 ∧
      pendingAfter (sources_selected c call) p = none := by
  constructor
  · simp only [sources_selected]
    rw [countTaskReturns_append, countTaskReturns_create_call_free]
    split_ifs <;> simp [countTaskReturns, List.countP_cons, isTaskReturn]
  · simp only [sources_selected]
    rw [pendingAfter_append, pendingAfter_create_call_free]

theorem countTaskReturns_create_cancelled_cb (call : CreateCall) :
    countTaskReturns (create_cancelled_cb call) = 0 := rfl

theorem countUnsubs_append (xs ys : List Action) :
    countUnsubs (xs ++ ys) = countUnsubs xs + countUnsubs ys :=
  List.countP_append _ _ _

theorem countUnsubs_create_call_free (call : CreateCall) :
    countUnsubs (create_call_free call) = if call.signal_id ≠ 0 then 1 else 0 := by
  unfold create_call_free
  split_ifs <;> rfl

theorem pendingAfter_start_call_free (call : StartCall) (p : Option Handler) :
    pendingAfter (start_call_free call) p = none := by
  unfold start_call_free
  split_ifs <;> rfl

/-- Fact: `start_call_free` only looks at the parent / subscription / cancellation
fields, not at the stored session. -/
theorem start_call_free_session (call : StartCall) (s : XdpSession) :
    start_call_free { call with session := s } = start_call_free call := rfl

theorem hasBusMethod_create_cancelled_cb (call : CreateCall) (m : String) :
    hasBusMethod (create_cancelled_cb call) m = ("Close" == m) := by
  simp [create_cancelled_cb, hasBusMethod, isBusMethod]

/-- Fact: `sources_selected` issues no bus call at all. -/
theorem hasBusMethod_sources_selected (c : Nat) (call : CreateCall) (m : String) :
    hasBusMethod (sources_selected c call) m = false := by
  simp only [sources_selected]
  rw [hasBusMethod_append, hasBusMethod_create_call_free]
  split_ifs <;> simp [hasBusMethod, isBusMethod]

/-- Fact: `session_created` leaves the negotiation parameters of the call record
untouched. -/
theorem session_created_preserves (tok sigId c : Nat) (call : CreateCall) :
    (session_created tok sigId c call).1.type = call.type ∧
    (session_created tok sigId c call).1.outputs = call.outputs ∧
    (session_created tok sigId c call).1.cancelled_id = call.cancelled_id := by
  by_cases hc0 : c = 0
  · subst hc0
    by_cases ht : call.type = XdpSessionType.remoteDesktop <;>
      simp [session_created, select_devices, select_sources, ht]
  · simp [session_created, if_neg hc0]

/-- Fact: `devices_selected` leaves the negotiation parameters of the call record
untouched. -/
theorem devices_selected_preserves (tok sigId c : Nat) (call : CreateCall) :
    (devices_selected tok sigId c call).1.type = call.type ∧
    (devices_selected tok sigId c call).1.outputs = call.outputs ∧
    (devices_selected tok sigId c call).1.cancelled_id = call.cancelled_id := by
  by_cases hc0 : c = 0
  · subst hc0
    by_cases ho : call.outputs ≠ 0 <;>
      simp [devices_selected, select_sources, ho]
  · simp [devices_selected, if_neg hc0]

/-- Actions of a successful `session_created` on a screencast call: the next
stage is SelectSources, never SelectDevices. -/
theorem session_created_screencast (tok sigId : Nat) (call : CreateCall)
    (p : Option Handler) (ht : call.type = XdpSessionType.screencast) :
    hasBusMethod (session_created tok sigId 0 call).2 "SelectDevices" = false ∧
    hasBusMethod (session_created tok sigId 0 call).2 "SelectSources" = true ∧
    pendingAfter (session_created tok sigId 0 call).2 p = some Handler.sources_selected := by
  refine ⟨?_, ?_, ?_⟩ <;>
    simp [session_created, select_sources, ht, hasBusMethod, isBusMethod, pendingAfter]

/-- Actions of a successful `session_created` on a remote-desktop call: the
next stage is SelectDevices, never SelectSources. -/
theorem session_created_remote (tok sigId : Nat) (call : CreateCall)
    (p : Option Handler) (ht : call.type = XdpSessionType.remoteDesktop) :
    hasBusMethod (session_created tok sigId 0 call).2 "SelectSources" = false ∧
    hasBusMethod (session_created tok sigId 0 call).2 "SelectDevices" = true ∧
    pendingAfter (session_created tok sigId 0 call).2 p = some Handler.devices_selected := by
  refine ⟨?_, ?_, ?_⟩ <;>
    simp [session_created, select_devices, ht, hasBusMethod, isBusMethod, pendingAfter]

/-- A failed `session_created` issues no bus call. -/
theorem session_created_fail_no_call (tok sigId c : Nat) (call : CreateCall)
    (hc0 : c ≠ 0) (m : String) :
    hasBusMethod (session_created tok sigId c call).2 m = false := by
  simp only [session_created, if_neg hc0]
  rw [hasBusMethod_append, hasBusMethod_create_call_free]
  split_ifs <;> simp [hasBusMethod, isBusMethod]

/-- Fact: `devices_selected` with an empty requested output mask never issues
SelectSources (or any bus call), for any response code. -/
theorem devices_selected_empty_outputs (tok sigId c : Nat) (call : CreateCall)
    (p : Option Handler) (ho : call.outputs = 0) (m : String) :
    hasBusMethod (devices_selected tok sigId c call).2 m = false ∧
    pendingAfter (devices_selected tok sigId c call).2 p ≠ some Handler.sources_selected := by
  by_cases hc0 : c = 0
  · subst hc0
    have hacts : (devices_selected tok sigId 0 call).2 =
        [Action.signalUnsubscribe call.signal_id,
         Action.taskReturn (TaskResult.session (call.id.getD ObjPath.portalObject) call.type)]
          ++ create_call_free { call with signal_id := 0 } := by
      simp [devices_selected, ho]
    rw [hacts, hasBusMethod_append, hasBusMethod_create_call_free,
      pendingAfter_append, pendingAfter_create_call_free]
    simp [hasBusMethod, isBusMethod]
  · constructor
    · simp only [devices_selected, if_neg hc0]
      rw [hasBusMethod_append, hasBusMethod_create_call_free]
      split_ifs <;> simp [hasBusMethod, isBusMethod]
    · simp only [devices_selected, if_neg hc0]
      rw [pendingAfter_append, pendingAfter_create_call_free]
      simp

/-- One driver step preserves the exactly-once completion invariant. -/
theorem TRInv_step (s : RunState) (e : Event) (h : TRInv s) : TRInv (dispatchEvent s e) := by
  obtain ⟨h1, h2⟩ := h
  cases e with
  | cancel =>
      simp only [dispatchEvent, dispatchCancel]
      split_ifs with hcond
      · refine ⟨?_, fun hne => ?_⟩
        · simpa [countTaskReturns_append, countTaskReturns_create_cancelled_cb] using h1
        · simpa [countTaskReturns_append, countTaskReturns_create_cancelled_cb] using h2 hne
      · exact ⟨h1, h2⟩
  | response c =>
      simp only [dispatchEvent, dispatchResponse]
      cases hp : s.pending with
      | none => exact ⟨h1, h2⟩
      | some hdl =>
          have h0 : countTaskReturns s.trace = 0 := h2 (by simp [hp])
          cases hdl with
          | session_created =>
              obtain ⟨k1, k2⟩ := session_created_step s.nextTok s.nextSig c s.call (some Handler.session_created)
              refine ⟨?_, fun hne => ?_⟩
              · simpa [countTaskReturns_append, h0] using k1
              · simp only [countTaskReturns_append, h0, Nat.zero_add]
                exact k2 (by simpa [hp] using hne)
          | devices_selected =>
              obtain ⟨k1, k2⟩ := devices_selected_step s.nextTok s.nextSig c s.call (some Handler.devices_selected)
              refine ⟨?_, fun hne => ?_⟩
              · simpa [countTaskReturns_append, h0] using k1
              · simp only [countTaskReturns_append, h0, Nat.zero_add]
                exact k2 (by simpa [hp] using hne)
          | sources_selected =>
              obtain ⟨k1, k2⟩ := sources_selected_step c s.call (some Handler.sources_selected)
              refine ⟨?_, fun hne => ?_⟩
              · simpa [countTaskReturns_append, h0] using k1
              · exact absurd k2 (by simpa [hp] using hne)
          | session_started => exact ⟨h1, h2⟩

theorem TRInv_runEvents (evs : List Event) (s : RunState) (h : TRInv s) :
    TRInv (runEvents s evs) := by
  induction evs generalizing s with
  | nil => exact h
  | cons e rest ih => exact ih _ (TRInv_step s e h)

theorem TRInv_initCreate (t : XdpSessionType) (d o : Nat) (m : Bool) (sender : String)
    (hc : Bool) : TRInv (initCreate t d o m sender hc) := by
  cases t <;> cases hc <;>
    refine ⟨?_, fun _ => ?_⟩ <;>
      simp [initCreate, xdp_portal_create_screencast_session,
        xdp_portal_create_remote_desktop_session, create_session, countTaskReturns,
        List.countP_cons, isTaskReturn, XDP_DEVICE_NONE]

/-- Fact: `session_started` never issues a bus call, for any response code. -/
theorem hasBusMethod_session_started (c : Nat) (ret : StartPayload) (call : StartCall)
    (m : String) :
    hasBusMethod (session_started c ret call).2 m = false := by
  simp only [session_started, start_call_free_session, start_call_free]
  split_ifs <;> simp [hasBusMethod, isBusMethod]

/-- Fact: `session_started` always tears the pending Start request down. -/
theorem pendingAfter_session_started (c : Nat) (ret : StartPayload) (call : StartCall)
    (p : Option Handler) :
    pendingAfter (session_started c ret call).2 p = none := by
  simp only [session_started, start_call_free_session]
  rw [pendingAfter_append, pendingAfter_start_call_free]

/-- Fields and initial trace of a freshly started establishment run. -/
theorem initCreate_fields (t : XdpSessionType) (d o : Nat) (m : Bool) (sender : String)
    (hc : Bool) :
    (initCreate t d o m sender hc).pending = some Handler.session_created ∧
    (initCreate t d o m sender hc).call.type = t ∧
    (initCreate t d o m sender hc).call.outputs = o ∧
    (initCreate t d o m sender hc).nextTok = 2 ∧
    (initCreate t d o m sender hc).nextSig = 2 ∧
    hasBusMethod (initCreate t d o m sender hc).trace "SelectDevices" = false ∧
    hasBusMethod (initCreate t d o m sender hc).trace "SelectSources" = false := by
  cases t <;> cases hc <;>
    simp [initCreate, xdp_portal_create_screencast_session,
      xdp_portal_create_remote_desktop_session, create_session, pendingAfter,
      hasBusMethod, isBusMethod]

/-- One driver step preserves the screencast invariant. -/
theorem NoSelDev_step (s : RunState) (e : Event) (h : NoSelDev s) :
    NoSelDev (dispatchEvent s e) := by
  obtain ⟨h1, h2, h3⟩ := h
  cases e with
  | cancel =>
      simp only [dispatchEvent, dispatchCancel]
      split_ifs with hcond
      · exact ⟨h1, by simp [hasBusMethod_append, hasBusMethod_create_cancelled_cb, h2], h3⟩
      · exact ⟨h1, h2, h3⟩
  | response c =>
      simp only [dispatchEvent, dispatchResponse]
      cases hp : s.pending with
      | none => exact ⟨h1, h2, h3⟩
      | some hdl =>
          cases hdl with
          | session_created =>
              by_cases hc0 : c = 0
              · subst hc0
                obtain ⟨k1, _, k3⟩ :=
                  session_created_screencast s.nextTok s.nextSig s.call
                    (some Handler.session_created) h1
                refine ⟨?_, ?_, ?_⟩
                · exact ((session_created_preserves s.nextTok s.nextSig 0 s.call).1).trans h1
                · simp [hasBusMethod_append, h2, k1]
                · simp [k3]
              · refine ⟨?_, ?_, ?_⟩
                · exact ((session_created_preserves s.nextTok s.nextSig c s.call).1).trans h1
                · simp [hasBusMethod_append, h2,
                    session_created_fail_no_call s.nextTok s.nextSig c s.call hc0]
                · have : pendingAfter (session_created s.nextTok s.nextSig c s.call).2
                      (some Handler.session_created) = none := by
                    simp only [session_created, if_neg hc0]
                    rw [pendingAfter_append, pendingAfter_create_call_free]
                  simp [this]
          | devices_selected => exact absurd hp h3
          | sources_selected =>
              refine ⟨h1, ?_, ?_⟩
              · simp [hasBusMethod_append, h2, hasBusMethod_sources_selected]
              · simp [(sources_selected_step c s.call (some Handler.sources_selected)).2]
          | session_started => exact ⟨h1, h2, h3⟩

/-- One driver step preserves the remote-desktop-with-empty-outputs
invariant. -/
theorem NoSelSrc_step (s : RunState) (e : Event) (h : NoSelSrc s) :
    NoSelSrc (dispatchEvent s e) := by
  obtain ⟨h1, h2, h3, h4⟩ := h
  cases e with
  | cancel =>
      simp only [dispatchEvent, dispatchCancel]
      split_ifs with hcond
      · exact ⟨h1, h2, by simp [hasBusMethod_append, hasBusMethod_create_cancelled_cb, h3], h4⟩
      · exact ⟨h1, h2, h3, h4⟩
  | response c =>
      simp only [dispatchEvent, dispatchResponse]
      cases hp : s.pending with
      | none => exact ⟨h1, h2, h3, h4⟩
      | some hdl =>
          cases hdl with
          | session_created =>
              by_cases hc0 : c = 0
              · subst hc0
                obtain ⟨k1, _, k3⟩ :=
                  session_created_remote s.nextTok s.nextSig s.call
                    (some Handler.session_created) h1
                refine ⟨?_, ?_, ?_, ?_⟩
                · exact ((session_created_preserves s.nextTok s.nextSig 0 s.call).1).trans h1
                · exact ((session_created_preserves s.nextTok s.nextSig 0 s.call).2.1).trans h2
                · simp [hasBusMethod_append, h3, k1]
                · simp [k3]
              · refine ⟨?_, ?_, ?_, ?_⟩
                · exact ((session_created_preserves s.nextTok s.nextSig c s.call).1).trans h1
                · exact ((session_created_preserves s.nextTok s.nextSig c s.call).2.1).trans h2
                · simp [hasBusMethod_append, h3,
                    session_created_fail_no_call s.nextTok s.nextSig c s.call hc0]
                · have : pendingAfter (session_created s.nextTok s.nextSig c s.call).2
                      (some Handler.session_created) = none := by
                    simp only [session_created, if_neg hc0]
                    rw [pendingAfter_append, pendingAfter_create_call_free]
                  simp [this]
          | devices_selected =>
              obtain ⟨k1, k2⟩ :=
                devices_selected_empty_outputs s.nextTok s.nextSig c s.call
                  (some Handler.devices_selected) h2 "SelectSources"
              refine ⟨?_, ?_, ?_, ?_⟩
              · exact ((devices_selected_preserves s.nextTok s.nextSig c s.call).1).trans h1
              · exact ((devices_selected_preserves s.nextTok s.nextSig c s.call).2.1).trans h2
              · simp [hasBusMethod_append, h3, k1]
              · exact k2
          | sources_selected => exact absurd hp h4
          | session_started => exact ⟨h1, h2, h3, h4⟩

theorem NoSelDev_runEvents (evs : List Event) (s : RunState) (h : NoSelDev s) :
    NoSelDev (runEvents s evs) := by
  induction evs generalizing s with
  | nil => exact h
  | cons e rest ih => exact ih _ (NoSelDev_step s e h)

theorem NoSelSrc_runEvents (evs : List Event) (s : RunState) (h : NoSelSrc s) :
    NoSelSrc (runEvents s evs) := by
  induction evs generalizing s with
  | nil => exact h
  | cons e rest ih => exact ih _ (NoSelSrc_step s e h)

/-! ## Claim theorems -/

/-- C1: in a screencast establishment whose CreateSession stage succeeded
(Response 0), firing the caller's cancellable during the SelectSources stage
sends the best-effort Close to the CreateSession request path (token 0)
although the live subscription — the currently pending stage — is the
SelectSources request (token 2): `call->request_path` is set only by
`create_session` and never re-armed on stage transitions, so the Close
target does not follow the active stage as the claim states. -/
theorem C1_cancel_close_targets_stale_request :
    (runEvents (initCreate XdpSessionType.screencast 0 1 false ":1.42" true)
        [Event.response 0, Event.cancel]).trace.getLast? =
      some (Action.busCall (ObjPath.request ":1.42" 0) REQUEST_INTERFACE "Close" []) ∧
    Action.signalSubscribe (ObjPath.request ":1.42" 2) Handler.sources_selected 2 ∈
      (runEvents (initCreate XdpSessionType.screencast 0 1 false ":1.42" true)
        [Event.response 0, Event.cancel]).trace ∧
    (runEvents (initCreate XdpSessionType.screencast 0 1 false ":1.42" true)
        [Event.response 0, Event.cancel]).pending = some Handler.sources_selected ∧
    ObjPath.request ":1.42" 0 ≠ ObjPath.request ":1.42" 2 := by
  decide

/-- C2 counterexample: in the terminal `sources_selected` handler the task is
completed (index 0 of the emitted actions) before the signal subscription is
removed (index 1), so the handler does not remove the subscription before
invoking the caller's continuation. -/
theorem C2_counterexample :
    firstTaskReturnIdx (sources_selected 0 sampleCreateCall) = 0 ∧
    firstUnsubIdx (sources_selected 0 sampleCreateCall) = 1 ∧
    countTaskReturns (sources_selected 0 sampleCreateCall) = 1 ∧
    countUnsubs (sources_selected 0 sampleCreateCall) = 1 := by
  decide

/-- C2 amended: on receipt of the correlated Response the handler removes
the signal subscription exactly once, always in the same handler activation,
and the caller's continuation fires at most once per operation no matter how
responses and cancellations interleave (a cancellation only sends a
best-effort Close and never completes the task) — but the claimed
unsubscribe-before-continuation order holds on only one completing path,
`devices_selected` with code 0 and an empty output mask, which unsubscribes
and then resolves with the session; every other completion
(`sources_selected` and `session_started` on codes 0/1/2, and the error
paths of `session_created` and `devices_selected` on codes 1/2) invokes the
continuation first and removes the subscription immediately afterwards,
while the stage-advancing paths (`session_created` code 0, and
`devices_selected` code 0 with outputs requested) unsubscribe exactly once
and fire no continuation. -/
theorem C2_amended :
    (∀ (t : XdpSessionType) (d o : Nat) (m : Bool) (sender : String) (hc : Bool)
       (evs : List Event),
       countTaskReturns (runEvents (initCreate t d o m sender hc) evs).trace ≤ 1) ∧
    (∀ (call : CreateCall) (c : Nat),
       call.signal_id ≠ 0 → c = 0 ∨ c = 1 ∨ c = 2 →
       countTaskReturns (sources_selected c call) = 1 ∧
       countUnsubs (sources_selected c call) = 1 ∧
       firstTaskReturnIdx (sources_selected c call) <
         firstUnsubIdx (sources_selected c call)) ∧
    (∀ (ret : StartPayload) (call : StartCall) (c : Nat),
       call.signal_id ≠ 0 → c = 0 ∨ c = 1 ∨ c = 2 →
       countTaskReturns (session_started c ret call).2 = 1 ∧
       countUnsubs (session_started c ret call).2 = 1 ∧
       firstTaskReturnIdx (session_started c ret call).2 <
         firstUnsubIdx (session_started c ret call).2) ∧
    (∀ (tok sigId : Nat) (call : CreateCall) (c : Nat),
       call.signal_id ≠ 0 → c = 1 ∨ c = 2 →
       countTaskReturns (session_created tok sigId c call).2 = 1 ∧
       countUnsubs (session_created tok sigId c call).2 = 1 ∧
       firstTaskReturnIdx (session_created tok sigId c call).2 <
         firstUnsubIdx (session_created tok sigId c call).2) ∧
    (∀ (tok sigId : Nat) (call : CreateCall),
       countTaskReturns (session_created tok sigId 0 call).2 = 0 ∧
       countUnsubs (session_created tok sigId 0 call).2 = 1) ∧
    (∀ (tok sigId : Nat) (call : CreateCall) (c : Nat),
       call.signal_id ≠ 0 → c = 1 ∨ c = 2 →
       countTaskReturns (devices_selected tok sigId c call).2 = 1 ∧
       countUnsubs (devices_selected tok sigId c call).2 = 1 ∧
       firstTaskReturnIdx (devices_selected tok sigId c call).2 <
         firstUnsubIdx (devices_selected tok sigId c call).2) ∧
    (∀ (tok sigId : Nat) (call : CreateCall),
       call.outputs = 0 →
       countTaskReturns (devices_selected tok sigId 0 call).2 = 1 ∧
       countUnsubs (devices_selected tok sigId 0 call).2 = 1 ∧
       firstUnsubIdx (devices_selected tok sigId 0 call).2 <
         firstTaskReturnIdx (devices_selected tok sigId 0 call).2) ∧
    (∀ (tok sigId : Nat) (call : CreateCall),
       call.outputs ≠ 0 →
       countTaskReturns (devices_selected tok sigId 0 call).2 = 0 ∧
       countUnsubs (devices_selected tok sigId 0 call).2 = 1) := by
  refine ⟨?_, ?_, ?_, ?_, ?_, ?_, ?_, ?_⟩
  · intro t d o m sender hc evs
    exact (TRInv_runEvents evs _ (TRInv_initCreate t d o m sender hc)).1
  · intro call c hsig hc012
    rcases hc012 with rfl | rfl | rfl <;>
      · refine ⟨?_, ?_, ?_⟩ <;>
          · simp only [sources_selected, create_call_free, if_pos hsig]
            split_ifs <;>
              simp [countTaskReturns, countUnsubs, firstTaskReturnIdx, firstUnsubIdx,
                List.countP_cons, List.countP_append, List.findIdx_cons,
                isTaskReturn, isUnsub]
  · intro ret call c hsig hc012
    rcases hc012 with rfl | rfl | rfl <;>
      · refine ⟨?_, ?_, ?_⟩ <;>
          · simp only [session_started, start_call_free_session, start_call_free]
            split_ifs <;>
              simp_all [countTaskReturns, countUnsubs, firstTaskReturnIdx, firstUnsubIdx,
                List.countP_cons, List.countP_append, List.findIdx_cons,
                isTaskReturn, isUnsub]
  · intro tok sigId call c hsig hc12
    have hrest : ∀ r,
        Action.taskReturn r :: create_call_free call =
          Action.taskReturn r :: Action.signalUnsubscribe call.signal_id
            :: ((if call.cancelled_id ≠ 0 then [Action.cancelDisconnect call.cancelled_id]
                 else []) ++ [Action.free]) := by
      intro r
      simp [create_call_free, hsig]
    rcases hc12 with rfl | rfl <;>
      · have hacts := hrest
        refine ⟨?_, ?_, ?_⟩ <;>
          · simp only [session_created]
            norm_num
            rw [hacts]
            split_ifs <;>
              simp [countTaskReturns, countUnsubs, firstTaskReturnIdx, firstUnsubIdx,
                List.countP_cons, List.countP_append, List.findIdx_cons,
                isTaskReturn, isUnsub]
  · intro tok sigId call
    by_cases ht : call.type = XdpSessionType.remoteDesktop <;>
      · constructor <;>
          simp [session_created, select_devices, select_sources, ht,
            countTaskReturns, countUnsubs, List.countP_cons, isTaskReturn, isUnsub]
  · intro tok sigId call c hsig hc12
    have hrest : ∀ r,
        Action.taskReturn r :: create_call_free call =
          Action.taskReturn r :: Action.signalUnsubscribe call.signal_id
            :: ((if call.cancelled_id ≠ 0 then [Action.cancelDisconnect call.cancelled_id]
                 else []) ++ [Action.free]) := by
      intro r
      simp [create_call_free, hsig]
    rcases hc12 with rfl | rfl <;>
      · have hacts := hrest
        refine ⟨?_, ?_, ?_⟩ <;>
          · simp only [devices_selected]
            norm_num
            rw [hacts]
            split_ifs <;>
              simp [countTaskReturns, countUnsubs, firstTaskReturnIdx, firstUnsubIdx,
                List.countP_cons, List.countP_append, List.findIdx_cons,
                isTaskReturn, isUnsub]
  · intro tok sigId call ho
    have hacts : (devices_selected tok sigId 0 call).2 =
        [Action.signalUnsubscribe call.signal_id,
         Action.taskReturn (TaskResult.session (call.id.getD ObjPath.portalObject) call.type)]
          ++ create_call_free { call with signal_id := 0 } := by
      simp [devices_selected, ho]
    refine ⟨?_, ?_, ?_⟩
    · rw [hacts, countTaskReturns_append, countTaskReturns_create_call_free]
      simp [countTaskReturns, List.countP_cons, isTaskReturn]
    · rw [hacts, countUnsubs_append, countUnsubs_create_call_free]
      simp [countUnsubs, List.countP_cons, isUnsub]
    · rw [hacts]
      simp [firstTaskReturnIdx, firstUnsubIdx, List.findIdx_cons, isTaskReturn, isUnsub]
  · intro tok sigId call ho
    constructor <;>
      simp [devices_selected, select_sources, ho, countTaskReturns, countUnsubs,
        List.countP_cons, isTaskReturn, isUnsub]

/-- C2 witness: the amended theorem applied at a concrete establishment run
and concrete calls pending in each stage, covering both orderings. -/
theorem C2_witness :
    countTaskReturns
        (runEvents (initCreate XdpSessionType.screencast 0 1 false ":1.42" true)
          [Event.response 0, Event.cancel]).trace ≤ 1 ∧
    (countTaskReturns (sources_selected 0 sampleCreateCall) = 1 ∧
     countUnsubs (sources_selected 0 sampleCreateCall) = 1 ∧
     firstTaskReturnIdx (sources_selected 0 sampleCreateCall) <
       firstUnsubIdx (sources_selected 0 sampleCreateCall)) ∧
    (countTaskReturns (session_started 0 ⟨none, none⟩ sampleStartCall).2 = 1 ∧
     countUnsubs (session_started 0 ⟨none, none⟩ sampleStartCall).2 = 1 ∧
     firstTaskReturnIdx (session_started 0 ⟨none, none⟩ sampleStartCall).2 <
       firstUnsubIdx (session_started 0 ⟨none, none⟩ sampleStartCall).2) ∧
    (countTaskReturns (session_created 2 2 1 sampleCreateCall).2 = 1 ∧
     countUnsubs (session_created 2 2 1 sampleCreateCall).2 = 1 ∧
     firstTaskReturnIdx (session_created 2 2 1 sampleCreateCall).2 <
       firstUnsubIdx (session_created 2 2 1 sampleCreateCall).2) ∧
    (countTaskReturns (devices_selected 2 2 2 sampleCreateCallNoOutputs).2 = 1 ∧
     countUnsubs (devices_selected 2 2 2 sampleCreateCallNoOutputs).2 = 1 ∧
     firstTaskReturnIdx (devices_selected 2 2 2 sampleCreateCallNoOutputs).2 <
       firstUnsubIdx (devices_selected 2 2 2 sampleCreateCallNoOutputs).2) ∧
    (countTaskReturns (devices_selected 2 2 0 sampleCreateCallNoOutputs).2 = 1 ∧
     countUnsubs (devices_selected 2 2 0 sampleCreateCallNoOutputs).2 = 1 ∧
     firstUnsubIdx (devices_selected 2 2 0 sampleCreateCallNoOutputs).2 <
       firstTaskReturnIdx (devices_selected 2 2 0 sampleCreateCallNoOutputs).2) ∧
    (countTaskReturns (devices_selected 2 2 0 sampleCreateCall).2 = 0 ∧
     countUnsubs (devices_selected 2 2 0 sampleCreateCall).2 = 1) :=
  ⟨C2_amended.1 XdpSessionType.screencast 0 1 false ":1.42" true
      [Event.response 0, Event.cancel],
   C2_amended.2.1 sampleCreateCall 0 (by decide) (Or.inl rfl),
   C2_amended.2.2.1 ⟨none, none⟩ sampleStartCall 0 (by decide) (Or.inl rfl),
   C2_amended.2.2.2.1 2 2 sampleCreateCall 1 (by decide) (Or.inl rfl),
   C2_amended.2.2.2.2.2.1 2 2 sampleCreateCallNoOutputs 2 (by decide) (Or.inr rfl),
   C2_amended.2.2.2.2.2.2.1 2 2 sampleCreateCallNoOutputs (by decide),
   C2_amended.2.2.2.2.2.2.2 2 2 sampleCreateCall (by decide)⟩

/-- C3 counterexample: a Response with code 3 delivered to the SelectSources
stage frees the pending request (the machine terminates, nothing further is
issued) but never completes the task: the operation does not resolve with a
terminal error, contradicting the claim for codes greater than 2. -/
theorem C3_counterexample :
    countTaskReturns
        (runEvents (initCreate XdpSessionType.screencast 0 1 false ":1.42" true)
          [Event.response 0, Event.response 3]).trace = 0 ∧
    (runEvents (initCreate XdpSessionType.screencast 0 1 false ":1.42" true)
        [Event.response 0, Event.response 3]).pending = none ∧
    Action.free ∈
      (runEvents (initCreate XdpSessionType.screencast 0 1 false ":1.42" true)
        [Event.response 0, Event.response 3]).trace := by
  decide

/-- C3 amended: at every establishment or start stage a Response with code 0
advances to the next defined stage or resolves success (`session_created`
issues the kind-appropriate selection call; `devices_selected` issues
SelectSources when an output mask was requested and otherwise resolves with
the session; `sources_selected` resolves with the session; `session_started`
resolves success), code 1 resolves the operation with a Cancelled error and
code 2 with a Failed error, and every nonzero code is terminal — the pending
request is torn down and no further stage's call is issued — but a code
greater than 2 terminates WITHOUT resolving the operation: the call is freed
with no completion at all. -/
theorem C3_amended :
    ∀ (call : CreateCall) (ret : StartPayload) (scall : StartCall) (tok sigId c : Nat),
      (c = 1 →
        Action.taskReturn (TaskResult.err ErrKind.cancelled "Remote desktop canceled")
            ∈ sources_selected c call ∧
        Action.taskReturn (TaskResult.err ErrKind.cancelled "Remote desktop canceled")
            ∈ (devices_selected tok sigId c call).2 ∧
        Action.taskReturn (TaskResult.err ErrKind.cancelled "CreateSession canceled")
            ∈ (session_created tok sigId c call).2 ∧
        Action.taskReturn (TaskResult.err ErrKind.cancelled "Screencast canceled")
            ∈ (session_started c ret scall).2) ∧
      (c = 2 →
        Action.taskReturn (TaskResult.err ErrKind.failed "Remote desktop failed")
            ∈ sources_selected c call ∧
        Action.taskReturn (TaskResult.err ErrKind.failed "Remote desktop failed")
            ∈ (devices_selected tok sigId c call).2 ∧
        Action.taskReturn (TaskResult.err ErrKind.failed "CreateSession failed")
            ∈ (session_created tok sigId c call).2 ∧
        Action.taskReturn (TaskResult.err ErrKind.failed "Screencast failed")
            ∈ (session_started c ret scall).2) ∧
      (c = 0 →
        hasBusMethod (session_created tok sigId c call).2
            (if call.type = XdpSessionType.remoteDesktop then "SelectDevices"
             else "SelectSources") = true ∧
        (call.outputs ≠ 0 →
          hasBusMethod (devices_selected tok sigId c call).2 "SelectSources" = true ∧
          pendingAfter (devices_selected tok sigId c call).2 (some Handler.devices_selected) =
            some Handler.sources_selected) ∧
        (call.outputs = 0 →
          Action.taskReturn (TaskResult.session (call.id.getD ObjPath.portalObject) call.type)
              ∈ (devices_selected tok sigId c call).2) ∧
        Action.taskReturn (TaskResult.session (call.id.getD ObjPath.portalObject) call.type)
            ∈ sources_selected c call ∧
        Action.taskReturn TaskResult.ok ∈ (session_started c ret scall).2) ∧
      (c ≠ 0 →
        pendingAfter (session_created tok sigId c call).2 (some Handler.session_created) = none ∧
        pendingAfter (devices_selected tok sigId c call).2 (some Handler.devices_selected) = none ∧
        pendingAfter (sources_selected c call) (some Handler.sources_selected) = none ∧
        hasBusMethod (session_created tok sigId c call).2 "SelectDevices" = false ∧
        hasBusMethod (session_created tok sigId c call).2 "SelectSources" = false ∧
        hasBusMethod (devices_selected tok sigId c call).2 "SelectSources" = false ∧
        pendingAfter (session_started c ret scall).2 (some Handler.session_started) = none ∧
        (∀ m2 : String, hasBusMethod (session_started c ret scall).2 m2 = false)) ∧
      (2 < c →
        countTaskReturns (sources_selected c call) = 0 ∧
        countTaskReturns (devices_selected tok sigId c call).2 = 0 ∧
        countTaskReturns (session_created tok sigId c call).2 = 0 ∧
        countTaskReturns (session_started c ret scall).2 = 0) := by
  intro call ret scall tok sigId c
  refine ⟨?_, ?_, ?_, ?_, ?_⟩
  · rintro rfl
    refine ⟨?_, ?_, ?_, ?_⟩ <;>
      simp [sources_selected, devices_selected, session_created, session_started,
        start_call_free_session, create_call_free]
  · rintro rfl
    refine ⟨?_, ?_, ?_, ?_⟩ <;>
      simp [sources_selected, devices_selected, session_created, session_started,
        start_call_free_session, create_call_free]
  · rintro rfl
    refine ⟨?_, ?_, ?_, ?_, ?_⟩
    · by_cases ht : call.type = XdpSessionType.remoteDesktop <;>
        simp [session_created, select_devices, select_sources, ht, hasBusMethod,
          isBusMethod]
    · intro ho
      constructor
      · simp [devices_selected, select_sources, ho, hasBusMethod, isBusMethod]
      · simp [devices_selected, select_sources, ho, pendingAfter]
    · intro ho
      simp [devices_selected, ho, create_call_free]
    · simp [sources_selected]
    · simp [session_started, start_call_free_session]
  · intro hc0
    refine ⟨?_, ?_, ?_, ?_, ?_, ?_, ?_, ?_⟩
    · simp only [session_created, if_neg hc0]
      rw [pendingAfter_append, pendingAfter_create_call_free]
    · simp only [devices_selected, if_neg hc0]
      rw [pendingAfter_append, pendingAfter_create_call_free]
    · simp only [sources_selected]
      rw [pendingAfter_append, pendingAfter_create_call_free]
    · simp only [session_created, if_neg hc0]
      rw [hasBusMethod_append, hasBusMethod_create_call_free]
      split_ifs <;> simp [hasBusMethod, isBusMethod]
    · simp only [session_created, if_neg hc0]
      rw [hasBusMethod_append, hasBusMethod_create_call_free]
      split_ifs <;> simp [hasBusMethod, isBusMethod]
    · simp only [devices_selected, if_neg hc0]
      rw [hasBusMethod_append, hasBusMethod_create_call_free]
      split_ifs <;> simp [hasBusMethod, isBusMethod]
    · exact pendingAfter_session_started c ret scall (some Handler.session_started)
    · intro m2
      exact hasBusMethod_session_started c ret scall m2
  · intro hgt
    have h0 : c ≠ 0 := by omega
    have h1 : c ≠ 1 := by omega
    have h2 : c ≠ 2 := by omega
    refine ⟨?_, ?_, ?_, ?_⟩
    · simp only [sources_selected, if_neg h0, if_neg h1, if_neg h2]
      rw [List.nil_append, countTaskReturns_create_call_free]
    · simp only [devices_selected, if_neg h0, if_neg h1, if_neg h2]
      rw [List.nil_append, countTaskReturns_create_call_free]
    · simp only [session_created, if_neg h0, if_neg h1, if_neg h2]
      rw [List.nil_append, countTaskReturns_create_call_free]
    · simp only [session_started, start_call_free_session, start_call_free,
        if_neg h0, if_neg h1, if_neg h2]
      split_ifs <;> simp [countTaskReturns, List.countP_cons, List.countP_append,
        isTaskReturn]

/-- C3 witness: the amended theorem applied at codes 0, 1 and 3 with
concrete pending calls at every stage. -/
theorem C3_witness :
    (Action.taskReturn (TaskResult.err ErrKind.cancelled "Remote desktop canceled")
        ∈ sources_selected 1 sampleCreateCall) ∧
    hasBusMethod (devices_selected 2 2 0 sampleCreateCall).2 "SelectSources" = true ∧
    (Action.taskReturn
        (TaskResult.session (sampleCreateCallNoOutputs.id.getD ObjPath.portalObject)
          sampleCreateCallNoOutputs.type)
        ∈ (devices_selected 2 2 0 sampleCreateCallNoOutputs).2) ∧
    (Action.taskReturn TaskResult.ok
        ∈ (session_started 0 ⟨none, none⟩ sampleStartCall).2) ∧
    pendingAfter (session_started 3 ⟨none, none⟩ sampleStartCall).2
        (some Handler.session_started) = none ∧
    countTaskReturns (sources_selected 3 sampleCreateCall) = 0 ∧
    countTaskReturns (session_started 3 ⟨none, none⟩ sampleStartCall).2 = 0 :=
  ⟨((C3_amended sampleCreateCall ⟨none, none⟩ sampleStartCall 2 2 1).1 rfl).1,
   (((C3_amended sampleCreateCall ⟨none, none⟩ sampleStartCall 2 2 0).2.2.1 rfl).2.1
       (by decide)).1,
   ((C3_amended sampleCreateCallNoOutputs ⟨none, none⟩ sampleStartCall 2 2 0).2.2.1
       rfl).2.2.1 rfl,
   ((C3_amended sampleCreateCall ⟨none, none⟩ sampleStartCall 2 2 0).2.2.1 rfl).2.2.2.2,
   ((C3_amended sampleCreateCall ⟨none, none⟩ sampleStartCall 2 2 3).2.2.2.1
       (by decide)).2.2.2.2.2.2.1,
   ((C3_amended sampleCreateCall ⟨none, none⟩ sampleStartCall 2 2 3).2.2.2.2 (by decide)).1,
   ((C3_amended sampleCreateCall ⟨none, none⟩ sampleStartCall 2 2 3).2.2.2.2
       (by decide)).2.2.2⟩

/-- C4 counterexample: a screencast (Capture) establishment with an empty
output mask still issues SelectSources after CreateSession succeeds —
`session_created` branches to `select_sources` for screencast sessions
without consulting the output mask, so SelectSources is not issued "only if
the requested output mask is non-empty". -/
theorem C4_counterexample :
    hasBusMethod
      (runEvents (initCreate XdpSessionType.screencast 0 0 false ":1.42" true)
        [Event.response 0]).trace "SelectSources" = true := by
  decide

/-- C4 amended: SelectDevices is issued exactly for remote-desktop (Remote
Input) establishments — never for a screencast (Capture) session, and issued
as soon as CreateSession succeeds for a remote-desktop session; for
remote-desktop sessions SelectSources is issued only when the requested
output mask is non-empty; but for a screencast session SelectSources is
issued on CreateSession success regardless of the output mask (the code
never consults the mask on that branch). -/
theorem C4_amended :
    ∀ (d o : Nat) (m : Bool) (sender : String) (hc : Bool) (evs : List Event),
      hasBusMethod
          (runEvents (initCreate XdpSessionType.screencast 0 o m sender hc) evs).trace
          "SelectDevices" = false ∧
      (o = 0 →
        hasBusMethod
            (runEvents (initCreate XdpSessionType.remoteDesktop d o m sender hc) evs).trace
            "SelectSources" = false) ∧
      hasBusMethod
          (runEvents (initCreate XdpSessionType.remoteDesktop d o m sender hc)
            [Event.response 0]).trace "SelectDevices" = true ∧
      hasBusMethod
          (runEvents (initCreate XdpSessionType.screencast 0 o m sender hc)
            [Event.response 0]).trace "SelectSources" = true := by
  intro d o m sender hc evs
  have hiS := initCreate_fields XdpSessionType.screencast 0 o m sender hc
  have hiR := initCreate_fields XdpSessionType.remoteDesktop d o m sender hc
  refine ⟨?_, ?_, ?_, ?_⟩
  · exact (NoSelDev_runEvents evs _
      ⟨hiS.2.1, hiS.2.2.2.2.2.1, by simp [hiS.1]⟩).2.1
  · intro ho
    subst ho
    exact (NoSelSrc_runEvents evs _
      ⟨hiR.2.1, hiR.2.2.1, hiR.2.2.2.2.2.2, by simp [hiR.1]⟩).2.2.1
  · simp only [runEvents, List.foldl, dispatchEvent, dispatchResponse, hiR.1]
    rw [hasBusMethod_append,
      (session_created_remote _ _ _ (some Handler.session_created) hiR.2.1).2.1,
      hiR.2.2.2.2.2.1]
    rfl
  · simp only [runEvents, List.foldl, dispatchEvent, dispatchResponse, hiS.1]
    rw [hasBusMethod_append,
      (session_created_screencast _ _ _ (some Handler.session_created) hiS.2.1).2.1,
      hiS.2.2.2.2.2.2]
    rfl

/-- C4 witness: the amended theorem applied at a concrete remote-desktop
establishment with empty output mask, run to completion. -/
theorem C4_witness :
    hasBusMethod
        (runEvents (initCreate XdpSessionType.remoteDesktop 3 0 false ":1.42" true)
          [Event.response 0, Event.response 0]).trace "SelectSources" = false ∧
    hasBusMethod
        (runEvents (initCreate XdpSessionType.remoteDesktop 3 0 false ":1.42" true)
          [Event.response 0]).trace "SelectDevices" = true :=
  ⟨(C4_amended 3 0 false ":1.42" true [Event.response 0, Event.response 0]).2.1 rfl,
   (C4_amended 3 0 false ":1.42" true [Event.response 0, Event.response 0]).2.2.1⟩

/-- C5 counterexample: `xdp_session_start` checks only `XDP_IS_SESSION`, not
the lifecycle state, so a Start attempt on a session already in state Closed
still issues the bus Start call — the Closed state does not block Start
client-side as the claim states. -/
theorem C5_counterexample :
    sampleClosedSession.state = XdpSessionState.closed ∧
    hasBusMethod (xdp_session_start sampleClosedSession false false 0 1 1).2 "Start" = true := by
  decide

/-- C5 amended: the Closed state is absorbing for input injection — every
input-injection call on a Closed session fails synchronously with zero bus
calls — but Start is not gated client-side: a Start attempt on a Closed
session still issues the bus Start call (only the remote service can fail
it). -/
theorem C5_amended :
    ∀ (sess : XdpSession), sess.state = XdpSessionState.closed →
      (∀ (dx dy x y button key steps : Int) (stream slot axis st : Nat)
         (finish keysym : Bool),
        xdp_session_pointer_motion sess dx dy = [] ∧
        xdp_session_pointer_position sess stream x y = [] ∧
        xdp_session_pointer_button sess button st = [] ∧
        xdp_session_pointer_axis sess finish dx dy = [] ∧
        xdp_session_pointer_axis_discrete sess axis steps = [] ∧
        xdp_session_keyboard_key sess keysym key st = [] ∧
        xdp_session_touch_down sess stream slot x y = [] ∧
        xdp_session_touch_position sess stream slot x y = [] ∧
        xdp_session_touch_up sess slot = []) ∧
      (∀ (hc : Bool) (tok sigId cancId : Nat),
        hasBusMethod (xdp_session_start sess false hc tok sigId cancId).2 "Start" = true) := by
  intro sess hcl
  have hg : ∀ bit, inputGate sess bit = false := by
    intro bit
    simp [inputGate, hcl]
  constructor
  · intro dx dy x y button key steps stream slot axis st finish keysym
    refine ⟨?_, ?_, ?_, ?_, ?_, ?_, ?_, ?_, ?_⟩ <;>
      simp [xdp_session_pointer_motion, xdp_session_pointer_position,
        xdp_session_pointer_button, xdp_session_pointer_axis,
        xdp_session_pointer_axis_discrete, xdp_session_keyboard_key,
        xdp_session_touch_down, xdp_session_touch_position, xdp_session_touch_up, hg]
  · intro hc tok sigId cancId
    cases hc <;>
      simp [xdp_session_start, start_session, hasBusMethod, isBusMethod]

/-- C5 witness: the amended theorem applied at a concrete Closed session. -/
theorem C5_witness :
    xdp_session_pointer_motion sampleClosedSession 1 2 = [] ∧
    xdp_session_touch_up sampleClosedSession 3 = [] ∧
    hasBusMethod (xdp_session_start sampleClosedSession false true 0 1 1).2 "Start" = true :=
  ⟨((C5_amended sampleClosedSession (by decide)).1 1 2 0 0 0 0 0 0 0 0 0 false false).1,
   ((C5_amended sampleClosedSession (by decide)).1 1 2 0 0 0 0 0 0 3 0 0 false
       false).2.2.2.2.2.2.2.2,
   (C5_amended sampleClosedSession (by decide)).2 true 0 1 1⟩

/-- C6: `session_started` sets the session lifecycle state unconditionally:
Active exactly when the Start response code is 0, Closed for every other
code (1, 2 or anything else), independently of what is reported to the
caller. -/
theorem C6_start_sets_state_unconditionally :
    ∀ (response : Nat) (ret : StartPayload) (call : StartCall),
      (session_started response ret call).1.session.state =
        if response = 0 then XdpSessionState.active else XdpSessionState.closed := by
  intro response ret call
  by_cases h0 : response = 0
  · subst h0
    cases hd : ret.devices <;> cases hs : ret.streams <;>
      simp [session_started, set_session_state, set_devices, set_streams, hd, hs]
  · by_cases h1 : response = 1 <;> by_cases h2 : response = 2 <;>
      simp [session_started, set_session_state, h0, h1, h2]

/-- C7: after a successful Start (code 0) the session's device mask is
updated only when the payload carries a `devices` field and the stream list
only when it carries a `streams` field; an absent field leaves the previous
value untouched. -/
theorem C7_payload_fields_optional :
    ∀ (ret : StartPayload) (call : StartCall),
      (session_started 0 ret call).1.session.devices =
        (match ret.devices with
         | some d => d
         | none => call.session.devices) ∧
      (session_started 0 ret call).1.session.streams =
        (match ret.streams with
         | some v => some v
         | none => call.session.streams) := by
  intro ret call
  cases hd : ret.devices <;> cases hs : ret.streams <;>
    simp [session_started, set_session_state, set_devices, set_streams, hd, hs]

/-- The boolean input gate holds exactly when the session is a remote-desktop
session, is Active, and has the required device bit granted. -/
theorem inputGate_iff (sess : XdpSession) (bit : Nat) :
    inputGate sess bit = true ↔
      sess.type = XdpSessionType.remoteDesktop ∧
        sess.state = XdpSessionState.active ∧ sess.devices &&& bit ≠ 0 := by
  simp [inputGate, and_assoc]

/-- Rewriting the boolean gate of an input call into its propositional form. -/
theorem gate_if (sess : XdpSession) (bit : Nat) (A : List Action) :
    (if inputGate sess bit then A else []) =
      (if sess.type = XdpSessionType.remoteDesktop ∧
            sess.state = XdpSessionState.active ∧ sess.devices &&& bit ≠ 0
       then A else []) := by
  by_cases h : sess.type = XdpSessionType.remoteDesktop ∧
      sess.state = XdpSessionState.active ∧ sess.devices &&& bit ≠ 0
  · rw [if_pos ((inputGate_iff sess bit).mpr h), if_pos h]
  · rw [if_neg h, if_neg]
    intro hg
    exact h ((inputGate_iff sess bit).mp hg)

/-- C8: every input-injection operation issues exactly its single
fire-and-forget notification call when the session is a remote-desktop
session in state Active holding the relevant device bit (pointer, keyboard
or touchscreen), and issues zero bus calls otherwise (the `g_return_if_fail`
guard fails synchronously). -/
theorem C8_input_gate :
    ∀ (sess : XdpSession) (dx dy x y button key steps : Int)
      (stream slot axis st : Nat) (finish keysym : Bool),
      xdp_session_pointer_motion sess dx dy =
        (if sess.type = XdpSessionType.remoteDesktop ∧
              sess.state = XdpSessionState.active ∧ sess.devices &&& XDP_DEVICE_POINTER ≠ 0
         then [Action.busCall ObjPath.portalObject REMOTE_DESKTOP_INTERFACE
                 "NotifyPointerMotion" [Arg.obj sess.id, Arg.vardict [], Arg.d dx, Arg.d dy]]
         else []) ∧
      xdp_session_pointer_position sess stream x y =
        (if sess.type = XdpSessionType.remoteDesktop ∧
              sess.state = XdpSessionState.active ∧ sess.devices &&& XDP_DEVICE_POINTER ≠ 0
         then [Action.busCall ObjPath.portalObject REMOTE_DESKTOP_INTERFACE
                 "NotifyPointerMotionAbsolute"
                 [Arg.obj sess.id, Arg.vardict [], Arg.u32 stream, Arg.d x, Arg.d y]]
         else []) ∧
      xdp_session_pointer_button sess button st =
        (if sess.type = XdpSessionType.remoteDesktop ∧
              sess.state = XdpSessionState.active ∧ sess.devices &&& XDP_DEVICE_POINTER ≠ 0
         then [Action.busCall ObjPath.portalObject REMOTE_DESKTOP_INTERFACE
                 "NotifyPointerButton"
                 [Arg.obj sess.id, Arg.vardict [], Arg.i32 button, Arg.u32 st]]
         else []) ∧
      xdp_session_pointer_axis sess finish dx dy =
        (if sess.type = XdpSessionType.remoteDesktop ∧
              sess.state = XdpSessionState.active ∧ sess.devices &&& XDP_DEVICE_POINTER ≠ 0
         then [Action.busCall ObjPath.portalObject REMOTE_DESKTOP_INTERFACE
                 "NotifyPointerAxis"
                 [Arg.obj sess.id, Arg.vardict [("finish", OptVal.b finish)],
                  Arg.d dx, Arg.d dy]]
         else []) ∧
      xdp_session_pointer_axis_discrete sess axis steps =
        (if sess.type = XdpSessionType.remoteDesktop ∧
              sess.state = XdpSessionState.active ∧ sess.devices &&& XDP_DEVICE_POINTER ≠ 0
         then [Action.busCall ObjPath.portalObject REMOTE_DESKTOP_INTERFACE
                 "NotifyPointerAxisDiscrete"
                 [Arg.obj sess.id, Arg.vardict [], Arg.u32 axis, Arg.i32 steps]]
         else []) ∧
      xdp_session_keyboard_key sess keysym key st =
        (if sess.type = XdpSessionType.remoteDesktop ∧
              sess.state = XdpSessionState.active ∧ sess.devices &&& XDP_DEVICE_KEYBOARD ≠ 0
         then [Action.busCall ObjPath.portalObject REMOTE_DESKTOP_INTERFACE
                 (if keysym then "NotifyKeyboardKeysym" else "NotifyKeyboardKeycode")
                 [Arg.obj sess.id, Arg.vardict [], Arg.i32 key, Arg.u32 st]]
         else []) ∧
      xdp_session_touch_down sess stream slot x y =
        (if sess.type = XdpSessionType.remoteDesktop ∧
              sess.state = XdpSessionState.active ∧ sess.devices &&& XDP_DEVICE_TOUCHSCREEN ≠ 0
         then [Action.busCall ObjPath.portalObject REMOTE_DESKTOP_INTERFACE
                 "NotifyTouchDown"
                 [Arg.obj sess.id, Arg.vardict [], Arg.u32 stream, Arg.u32 slot,
                  Arg.d x, Arg.d y]]
         else []) ∧
      xdp_session_touch_position sess stream slot x y =
        (if sess.type = XdpSessionType.remoteDesktop ∧
              sess.state = XdpSessionState.active ∧ sess.devices &&& XDP_DEVICE_TOUCHSCREEN ≠ 0
         then [Action.busCall ObjPath.portalObject REMOTE_DESKTOP_INTERFACE
                 "NotifyTouchMotion"
                 [Arg.obj sess.id, Arg.vardict [], Arg.u32 stream, Arg.u32 slot,
                  Arg.d x, Arg.d y]]
         else []) ∧
      xdp_session_touch_up sess slot =
        (if sess.type = XdpSessionType.remoteDesktop ∧
              sess.state = XdpSessionState.active ∧ sess.devices &&& XDP_DEVICE_TOUCHSCREEN ≠ 0
         then [Action.busCall ObjPath.portalObject REMOTE_DESKTOP_INTERFACE
                 "NotifyTouchMotion" [Arg.obj sess.id, Arg.vardict [], Arg.u32 slot]]
         else []) := by
  intro sess dx dy x y button key steps stream slot axis st finish keysym
  refine ⟨?_, ?_, ?_, ?_, ?_, ?_, ?_, ?_, ?_⟩ <;>
    first
      | exact gate_if sess XDP_DEVICE_POINTER _
      | exact gate_if sess XDP_DEVICE_KEYBOARD _
      | exact gate_if sess XDP_DEVICE_TOUCHSCREEN _

/-- C9: when its preconditions hold, `xdp_session_touch_up` issues one call
to the method name "NotifyTouchMotion" — the same remote method name that
`xdp_session_touch_position` uses — carrying the session identifier, an
empty options map, and only the slot argument (no stream id, no
coordinates). -/
theorem C9_touch_up_method :
    ∀ (sess : XdpSession) (slot stream : Nat) (x y : Int),
      sess.type = XdpSessionType.remoteDesktop →
      sess.state = XdpSessionState.active →
      sess.devices &&& XDP_DEVICE_TOUCHSCREEN ≠ 0 →
      xdp_session_touch_up sess slot =
        [Action.busCall ObjPath.portalObject REMOTE_DESKTOP_INTERFACE
          "NotifyTouchMotion" [Arg.obj sess.id, Arg.vardict [], Arg.u32 slot]] ∧
      xdp_session_touch_position sess stream slot x y =
        [Action.busCall ObjPath.portalObject REMOTE_DESKTOP_INTERFACE
          "NotifyTouchMotion"
          [Arg.obj sess.id, Arg.vardict [], Arg.u32 stream, Arg.u32 slot,
           Arg.d x, Arg.d y]] := by
  intro sess slot stream x y ht hs hd
  have hg : inputGate sess XDP_DEVICE_TOUCHSCREEN = true :=
    (inputGate_iff sess XDP_DEVICE_TOUCHSCREEN).mpr ⟨ht, hs, hd⟩
  constructor
  · rw [xdp_session_touch_up, if_pos hg]
  · rw [xdp_session_touch_position, if_pos hg]

/-- C9 witness: the theorem applied to a concrete active remote-desktop
session with the touchscreen bit granted. -/
theorem C9_witness :
    xdp_session_touch_up sampleActiveRD 3 =
      [Action.busCall ObjPath.portalObject REMOTE_DESKTOP_INTERFACE
        "NotifyTouchMotion" [Arg.obj sampleActiveRD.id, Arg.vardict [], Arg.u32 3]] ∧
    xdp_session_touch_position sampleActiveRD 9 3 10 20 =
      [Action.busCall ObjPath.portalObject REMOTE_DESKTOP_INTERFACE
        "NotifyTouchMotion"
        [Arg.obj sampleActiveRD.id, Arg.vardict [], Arg.u32 9, Arg.u32 3,
         Arg.d 10, Arg.d 20]] :=
  C9_touch_up_method sampleActiveRD 3 9 10 20 (by decide) (by decide) (by decide)

/-- C10: the synchronous `OpenPipeWireRemote` retrieval returns -1 whenever
the underlying synchronous bus call fails and leaves the session unchanged;
on success it returns the fd extracted from the returned fd list at the
index given in the `(h)` reply. -/
theorem C10_open_pipewire_remote :
    ∀ (sess : XdpSession) (reply : Option (Nat × List Int)),
      (xdp_session_open_pipewire_remote sess reply).2 = sess ∧
      xdp_session_open_pipewire_remote sess none = (-1, sess) ∧
      (∀ (idx : Nat) (fds : List Int),
        xdp_session_open_pipewire_remote sess (some (idx, fds)) =
          (g_unix_fd_list_get fds idx, sess)) := by
  intro sess reply
  refine ⟨?_, rfl, fun idx fds => rfl⟩
  cases reply with
  | none => rfl
  | some p => cases p; rfl

end LibPortal
